import Mathlib

/-!
Shallow embedding of `src/octoprint/comm/job/__init__.py` (the print-job
execution core). Mutable Python objects become explicit state records;
every externally visible side effect (listener notifications via
`notify_listeners`, calls into the protocol collaborator, the stats
report) is logged as an event in an explicit trace. The monotonic clock
is threaded through as an explicit `now : Nat` parameter wherever the
source reads `monotonic()`. Exceptions raised by the Python code are
modelled as an `Option Err` component of the result (the state mutations
performed before the raise persist, as they do in Python).
-/

namespace OctoJob

/-- Observable side effects of a job: listener notifications
(`notify_listeners "on_job_*"`), protocol-collaborator calls and the
stats-report invocation, in the order the source performs them. -/
inductive Ev where
  | jobStarted
  | jobDone
  | jobFailed
  | jobCancelled
  | jobPaused
  | jobResumed
  | jobProgress
  | registerListener
  | unregisterListener
  | recordFile (remote : String)
  | stopRecordingFile
  | deleteFile (remote : String)
  | reportStats
  | startFilePrint (path : String) (position : Nat)
  deriving DecidableEq, Repr

/-- Python exceptions the embedded code can raise. `valueError` stands for
the raise at the top of `LocalFilePrintjob.get_next` when the handle is
closed; `attributeError` stands for calling a method on `None`
(e.g. `self._protocol.unregister_listener` when `_protocol is None`). -/
inductive Err where
  | valueError
  | attributeError
  deriving DecidableEq, Repr

/-- True exactly for the `on_job_*` listener notifications (the lifecycle
notifications of the `PrintjobListener` contract), as opposed to calls on
the protocol collaborator or the stats report. -/
def Ev.isJobNotification : Ev → Bool
  | .jobStarted | .jobDone | .jobFailed | .jobCancelled
  | .jobPaused | .jobResumed | .jobProgress => true
  | _ => false

namespace Printjob

/-- Mutable state of the `Printjob` base class: `_start`, `_protocol`,
`_lost_time`, `_last_elapsed`. The protocol is identified by a `Nat`
handle (a borrowed reference in the source). -/
structure State where
  start : Option Nat
  protocol : Option Nat
  lost_time : Nat
  last_elapsed : Option Nat
  deriving DecidableEq, Repr

/-- `Printjob.__init__`: `_start = None`, `_protocol = None`,
`_lost_time = 0`, `_last_elapsed = None`. -/
def mk : State :=
  { start := none, protocol := none, lost_time := 0, last_elapsed := none }

/-- `Printjob.elapsed`: `monotonic() - self._start` if `_start` is set,
else `None`. -/
def elapsed (now : Nat) (s : State) : Option Nat :=
  s.start.map (fun t => now - t)

/-- `Printjob.active`: `self._start is not None`. -/
def active (s : State) : Bool :=
  s.start.isSome

/-- `Printjob.reset_job`: snapshot `_last_elapsed` if `_start` was set,
then clear `_start`. -/
def reset_job (now : Nat) (s : State) : State :=
  { s with
    last_elapsed := if s.start.isSome then elapsed now s else s.last_elapsed
    start := none }

/-- `Printjob.process`: unconditionally sets `_start = monotonic()`,
binds `_protocol` and registers the job as a listener on it. The source
performs no already-active check. -/
def process (now proto : Nat) (s : State) : State × List Ev :=
  ({ s with start := some now, protocol := some proto },
   [Ev.registerListener])

/-- `Printjob.process_job_done`: notify `on_job_done`, report stats,
reset. -/
def process_job_done (now : Nat) (s : State) : State × List Ev :=
  (reset_job now s, [Ev.jobDone, Ev.reportStats])

/-- `Printjob.process_job_failed`: notify `on_job_failed`, report stats,
reset. -/
def process_job_failed (now : Nat) (s : State) : State × List Ev :=
  (reset_job now s, [Ev.jobFailed, Ev.reportStats])

/-- `Printjob.process_job_cancelled`: notify `on_job_cancelled`, report
stats, reset. -/
def process_job_cancelled (now : Nat) (s : State) : State × List Ev :=
  (reset_job now s, [Ev.jobCancelled, Ev.reportStats])

/-- `Printjob.cancel`: run the failed or cancelled terminal processing,
then `self._protocol.unregister_listener(self)` and `self._protocol =
None`. When `_protocol is None` the unregister call raises
(`AttributeError` on `None`) after the terminal processing has already
run; the state reached before the raise is kept. -/
def cancel (now : Nat) (error : Bool) (s : State) :
    State × List Ev × Option Err :=
  let (s1, ev) :=
    if error then process_job_failed now s else process_job_cancelled now s
  match s1.protocol with
  | none => (s1, ev, some Err.attributeError)
  | some _ =>
      ({ s1 with protocol := none }, ev ++ [Ev.unregisterListener], none)

/-- `Printjob.progress`: `None` if `pos` or `size` is `None` or `size ==
0`, else `float(pos)/float(size)` (modelled exactly in `ℚ`). -/
def progress (pos size : Option Nat) : Option ℚ :=
  match pos, size with
  | some p, some sz => if sz = 0 then none else some ((p : ℚ) / (sz : ℚ))
  | _, _ => none

end Printjob

namespace LocalFilePrintjob

/-- Mutable state of `LocalFilePrintjob`: the base-class fields plus
`_size`, `_pos`, `_read_lines`, `_actual_lines`, `_cancel_pos` and the
read handle. The backing file is modelled as its decoded character
stream (`content`); the open handle, when present, holds the unread
suffix of that stream. `close()` is modelled by setting `handle` to
`none`. -/
structure State where
  base : Printjob.State
  content : List Char
  size : Nat
  pos : Nat
  read_lines : Nat
  actual_lines : Nat
  cancel_pos : Option Nat
  handle : Option (List Char)
  deriving DecidableEq, Repr

/-- `LocalFilePrintjob.__init__` over backing content `content`
(`_size = os.stat(path).st_size`, here the length of the decoded
stream; counters zero; no handle). -/
def mk (content : List Char) : State :=
  { base := Printjob.mk
    content := content
    size := content.length
    pos := 0
    read_lines := 0
    actual_lines := 0
    cancel_pos := none
    handle := none }

/-- `handle.readline()`: reads characters up to and including the next
newline; returns the empty string at end of file. -/
def readline : List Char → String × List Char
  | [] => ("", [])
  | c :: rest =>
      if c = '\n' then (String.mk [c], rest)
      else
        let (l, r) := readline rest
        (String.mk (c :: l.data), r)

/-- `LocalFilePrintjob.reset_job`: base reset, then `close()` (handle
becomes `None`), then `self._pos = self._read_lines = 0`. Note the
source does not reset `_actual_lines`. -/
def reset_job (now : Nat) (s : State) : State :=
  { s with
    base := Printjob.reset_job now s.base
    handle := none
    pos := 0
    read_lines := 0 }

/-- `Printjob.process_job_done` as dispatched on a local-file job:
notify `on_job_done`, report stats, then the overridden `reset_job`. -/
def process_job_done (now : Nat) (s : State) : State × List Ev :=
  (reset_job now s, [Ev.jobDone, Ev.reportStats])

/-- `LocalFilePrintjob.process`: base `process` (start time, protocol,
listener registration), open the handle on the backing content, seek if
`position > 0` (modelled as dropping `position` characters; no claim
exercises a nonzero position), then `process_job_started`. -/
def process (now proto position : Nat) (s : State) : State × List Ev :=
  let (b, ev) := Printjob.process now proto s.base
  let s1 := { s with base := b, handle := some s.content }
  let s2 :=
    if position > 0 then
      { s1 with handle := some (s.content.drop position), pos := position }
    else s1
  (s2, ev ++ [Ev.jobStarted])

/-- `LocalFilePrintjob.cancel`: record `_cancel_pos = self.pos`, then the
base-class cancel. -/
def cancel (now : Nat) (error : Bool) (s : State) :
    State × List Ev × Option Err :=
  let s0 := { s with cancel_pos := some s.pos }
  let (b, ev, err) := Printjob.cancel now error s0.base
  -- base cancel only touches base-class fields, but its terminal
  -- processing dispatches to the local reset_job, which also closes the
  -- handle and zeroes pos/read_lines
  let s1 :=
    { reset_job now s0 with
      base := b
      cancel_pos := some s.pos }
  (s1, ev, err)

/-- Result of one `get_next()` call: a processed line, `None` (job
finished), a raised exception, or fuel exhaustion of the model (never
reached with fuel `content.length + 2`). -/
inductive NextRes where
  | line (s : String)
  | finished
  | raised (e : Err)
  | fuelOut
  deriving DecidableEq, Repr

/-- The `while processed is None` loop body of
`LocalFilePrintjob.get_next`, parameterised by the dynamically
dispatched `process_line`. Each iteration: if the handle is closed
(`file got closed just now`), emit `process_job_done` and return `None`;
otherwise read a line, advance `pos` by its decoded length, increment
`actual_lines`, emit `process_job_done` on the empty (EOF) line, run
`process_line`, and loop while it yields `None`. On a processed result:
increment `read_lines`, notify `on_job_progress`, return it. -/
def get_next_loop (procLine : String → Option String) (now : Nat) :
    Nat → State → State × List Ev × NextRes
  | 0, s => (s, [], .fuelOut)
  | fuel + 1, s =>
      match s.handle with
      | none =>
          let (s1, ev) := process_job_done now s
          (s1, ev, .finished)
      | some chars =>
          let (line, rest) := readline chars
          let s1 :=
            { s with
              handle := some rest
              pos := s.pos + line.length
              actual_lines := s.actual_lines + 1 }
          let (s2, ev2) :=
            if line = "" then process_job_done now s1 else (s1, [])
          match procLine line with
          | some processed =>
              let s3 := { s2 with read_lines := s2.read_lines + 1 }
              (s3, ev2 ++ [Ev.jobProgress], .line processed)
          | none =>
              let (s4, ev4, r) := get_next_loop procLine now fuel s2
              (s4, ev2 ++ ev4, r)

/-- `LocalFilePrintjob.get_next`: raises when the handle is not open
(the source's raise at the top of the method), else runs the read loop.
Fuel `content.length + 2` covers every iteration the loop can make in
one call (each non-returning iteration consumes a character or closes
the handle). -/
def get_next (procLine : String → Option String) (now : Nat) (s : State) :
    State × List Ev × NextRes :=
  match s.handle with
  | none => (s, [], .raised Err.valueError)
  | some _ => get_next_loop procLine now (s.content.length + 2) s

/-- `LocalFilePrintjob.process_line`: the identity transform — returns
the line itself (never `None`). -/
def process_line (line : String) : Option String :=
  some line

/-- Drives a job with repeated `get_next()` calls, collecting states,
events and the returned processed lines, until a call returns something
other than a line (or fuel runs out). -/
def drive (procLine : String → Option String) (now : Nat) :
    Nat → State → State × List Ev × List String
  | 0, s => (s, [], [])
  | fuel + 1, s =>
      match get_next procLine now s with
      | (s1, ev, .line l) =>
          let (s2, ev2, ls) := drive procLine now fuel s1
          (s2, ev ++ ev2, l :: ls)
      | (s1, ev, _) => (s1, ev, [])

end LocalFilePrintjob

namespace LocalGcodeFilePrintjob

/-- Python's `str.strip()`: remove leading and trailing whitespace. -/
def pyStrip (s : String) : String :=
  String.mk
    (((s.data.dropWhile Char.isWhitespace).reverse.dropWhile
        Char.isWhitespace).reverse)

/-- Modelled from the spec: `strip_comment` from
`octoprint.comm.protocol.reprap.util` is imported by
`LocalGcodeFilePrintjob.process_line` but is not under `src/`. Per the
spec it "strips a trailing/embedded comment according to the target
command syntax": everything from the first `;` on is removed and the
remainder is stripped of surrounding whitespace. -/
def strip_comment (line : String) : String :=
  pyStrip (String.mk (line.data.takeWhile (fun c => c ≠ ';')))

/-- `LocalGcodeFilePrintjob.process_line`: strip the line, strip
comments, return `None` when nothing remains. -/
def process_line (line : String) : Option String :=
  let processed := pyStrip line
  let processed := strip_comment processed
  if processed.length = 0 then none else some processed

end LocalGcodeFilePrintjob

namespace LocalGcodeStreamjob

/-- Mutable state of `LocalGcodeStreamjob`: the local-file job state plus
the `_remote` destination. -/
structure State where
  job : LocalFilePrintjob.State
  remote : String
  deriving DecidableEq, Repr

/-- `LocalGcodeStreamjob.process_job_cancelled`:
`self._protocol.stop_recording_file()`, then
`self._protocol.delete_file(self.remote)`, then the base
`process_job_cancelled` (notify `on_job_cancelled`, report stats, the
local-file `reset_job`). When no protocol is bound the first call raises
before any effect. -/
def process_job_cancelled (now : Nat) (s : State) :
    State × List Ev × Option Err :=
  match s.job.base.protocol with
  | none => (s, [], some Err.attributeError)
  | some _ =>
      ({ s with job := LocalFilePrintjob.reset_job now s.job },
       [Ev.stopRecordingFile, Ev.deleteFile s.remote,
        Ev.jobCancelled, Ev.reportStats],
       none)

/-- `LocalGcodeStreamjob.process_job_failed`:
`self._protocol.stop_recording_file()`, then the base
`process_job_failed` (notify `on_job_failed`, report stats, the
local-file `reset_job`). When no protocol is bound the
`stop_recording_file` call raises before any effect. -/
def process_job_failed (now : Nat) (s : State) :
    State × List Ev × Option Err :=
  match s.job.base.protocol with
  | none => (s, [], some Err.attributeError)
  | some _ =>
      ({ s with job := LocalFilePrintjob.reset_job now s.job },
       [Ev.stopRecordingFile, Ev.jobFailed, Ev.reportStats],
       none)

/-- `cancel` as dispatched on a recording job:
`LocalFilePrintjob.cancel` records `_cancel_pos`, then the base
`Printjob.cancel` body runs — but its terminal processing dispatches to
the overridden `process_job_failed`/`process_job_cancelled` above, whose
first statement calls `self._protocol.stop_recording_file()`. With no
bound protocol that call raises and the exception propagates out of
`cancel` before any notification and before the unregister step. -/
def cancel (now : Nat) (error : Bool) (s : State) :
    State × List Ev × Option Err :=
  let s0 := { s with job := { s.job with cancel_pos := some s.job.pos } }
  let (s1, ev, err) :=
    if error then process_job_failed now s0 else process_job_cancelled now s0
  match err with
  | some e => (s1, ev, some e)
  | none =>
      match s1.job.base.protocol with
      | none => (s1, ev, some Err.attributeError)
      | some _ =>
          ({ s1 with
             job := { s1.job with
                      base := { s1.job.base with protocol := none } } },
           ev ++ [Ev.unregisterListener], none)

end LocalGcodeStreamjob

namespace SDFilePrintjob

/-- Mutable state of `SDFilePrintjob`: the base-class fields plus
`_filename`, `_size`, `_last_pos` and the `_active` flag. The background
status timer is a concurrency construct and is not part of the state
machine (its ticks only issue status queries; all state changes arrive
through the protocol callbacks modelled below). -/
structure State where
  base : Printjob.State
  filename : String
  size : Option Nat
  last_pos : Option Nat
  active : Bool
  deriving DecidableEq, Repr

/-- `SDFilePrintjob.__init__`. -/
def mk (path : String) : State :=
  { base := Printjob.mk
    filename := path
    size := none
    last_pos := none
    active := false }

/-- `SDFilePrintjob.reset_job`: sets `_active = False`, `_last_pos =
None`, `_size = None`. Note the source does not call the base-class
`reset_job`, so `_start` is left untouched. -/
def reset_job (s : State) : State :=
  { s with active := false, last_pos := none, size := none }

/-- `Printjob.process_job_done` as dispatched on an SD job: notify
`on_job_done`, report stats, then the overridden `reset_job`. -/
def process_job_done (s : State) : State × List Ev :=
  (reset_job s, [Ev.jobDone, Ev.reportStats])

/-- `SDFilePrintjob.process`: base `process` (which already registers
the listener), then a second `register_listener`, then
`start_file_print(filename, position)`, then `_active = True` and
`_last_pos = position`, then the status timer is started (not part of
the state machine). -/
def process (now proto position : Nat) (s : State) : State × List Ev :=
  let (b, ev) := Printjob.process now proto s.base
  ({ s with base := b, active := true, last_pos := some position },
   ev ++ [Ev.registerListener, Ev.startFilePrint s.filename position])

/-- `SDFilePrintjob.on_protocol_file_status`: update `_last_pos` and
`_size`, then notify `on_job_progress`. -/
def on_protocol_file_status (pos total : Nat) (s : State) :
    State × List Ev :=
  ({ s with last_pos := some pos, size := some total }, [Ev.jobProgress])

/-- `SDFilePrintjob.on_protocol_file_print_started`: set `_size`, then
`process_job_started` (notify `on_job_started`). -/
def on_protocol_file_print_started (size : Nat) (s : State) :
    State × List Ev :=
  ({ s with size := some size }, [Ev.jobStarted])

/-- `SDFilePrintjob.on_protocol_file_print_done`: `process_job_done`. -/
def on_protocol_file_print_done (s : State) : State × List Ev :=
  process_job_done s

/-- `Printjob.progress` read on an SD job: `pos` is `_last_pos`, `size`
is `_size`. -/
def progress (s : State) : Option ℚ :=
  Printjob.progress s.last_pos s.size

end SDFilePrintjob

/-! ### Concrete scenario runs

The 3-line local gcode scenario of the spec ("G1 X1\n", "; comment\n",
"G1 Y1\n") driven through `LocalGcodeFilePrintjob`, and the SD-card
scenario (started with size 1000, status callbacks at 200/1000 and
1000/1000, then done). -/

/-- The 3-line backing content of the spec scenario. -/
def c1content : List Char := ("G1 X1\n; comment\nG1 Y1\n").data

/-- `process(protocol 0, position 0)` at time 0 on the freshly
constructed gcode job. -/
def c1started : LocalFilePrintjob.State × List Ev :=
  LocalFilePrintjob.process 0 0 0 (LocalFilePrintjob.mk c1content)

/-- The first two `get_next()` calls (each returning a processed
line). -/
def c1firstTwo : LocalFilePrintjob.State × List Ev × List String :=
  LocalFilePrintjob.drive LocalGcodeFilePrintjob.process_line 0 2
    c1started.1

/-- The state after the two successful `get_next()` calls. -/
def c1mid : LocalFilePrintjob.State := c1firstTwo.1

/-- The end-of-content `get_next()` call. -/
def c1last : LocalFilePrintjob.State × List Ev × LocalFilePrintjob.NextRes :=
  LocalFilePrintjob.get_next LocalGcodeFilePrintjob.process_line 0 c1mid

/-- The state after the scenario has been driven to completion. -/
def c1final : LocalFilePrintjob.State := c1last.1

/-- Every event of the scenario, from `process()` through the
end-of-content `get_next()`. -/
def c1events : List Ev :=
  c1started.2 ++ c1firstTwo.2.1 ++ c1last.2.1

/-- A second full run over the same job instance: `process()` again from
position 0 on the state left by the first run. -/
def c7secondStart : LocalFilePrintjob.State × List Ev :=
  LocalFilePrintjob.process 50 0 0 c1final

/-- The second run driven to completion. -/
def c7secondRun : LocalFilePrintjob.State × List Ev × List String :=
  LocalFilePrintjob.drive LocalGcodeFilePrintjob.process_line 50 10
    c7secondStart.1

/-- The state after the second full run. -/
def c7final : LocalFilePrintjob.State :=
  (LocalFilePrintjob.get_next LocalGcodeFilePrintjob.process_line 50
    c7secondRun.1).1

/-- SD scenario: `process(protocol 0, position 0)` at time 7. -/
def sdStep1 : SDFilePrintjob.State × List Ev :=
  SDFilePrintjob.process 7 0 0 (SDFilePrintjob.mk "x")

/-- SD scenario: `on_protocol_file_print_started(name="x", size=1000)`. -/
def sdStep2 : SDFilePrintjob.State × List Ev :=
  SDFilePrintjob.on_protocol_file_print_started 1000 sdStep1.1

/-- SD scenario: first status callback (pos=200, total=1000). -/
def sdStep3 : SDFilePrintjob.State × List Ev :=
  SDFilePrintjob.on_protocol_file_status 200 1000 sdStep2.1

/-- SD scenario: second status callback (pos=1000, total=1000). -/
def sdStep4 : SDFilePrintjob.State × List Ev :=
  SDFilePrintjob.on_protocol_file_status 1000 1000 sdStep3.1

/-- SD scenario: `on_protocol_file_print_done()`. -/
def sdStep5 : SDFilePrintjob.State × List Ev :=
  SDFilePrintjob.on_protocol_file_print_done sdStep4.1

/-- Every event of the SD scenario, in order. -/
def sdEvents : List Ev :=
  sdStep1.2 ++ sdStep2.2 ++ sdStep3.2 ++ sdStep4.2 ++ sdStep5.2

/-- The SD job state after the terminal transition (its `reset_job` has
run). -/
def sdFinal : SDFilePrintjob.State := sdStep5.1

/-- A base-class job state that is already active (processed at time 5
on protocol 1). -/
def c4active : Printjob.State :=
  { start := some 5, protocol := some 1, lost_time := 0, last_elapsed := none }

/-- A recording job over the 3-line content on which no transport is
bound (never processed). -/
def c10stream : LocalGcodeStreamjob.State :=
  { job := LocalFilePrintjob.mk c1content, remote := "r.gco" }

/-! ### Claims -/

/-- Claim C1, counterexample: on the 3-line scenario the driven run
emits `job_done` twice, not exactly once, and the `get_next()` call
after completion raises instead of returning `None`. -/
theorem c1_scenario_counterexample :
    c1events.count Ev.jobDone = 2
    ∧ ¬ c1events.count Ev.jobDone = 1
    ∧ (LocalFilePrintjob.get_next LocalGcodeFilePrintjob.process_line 0
        c1final).2.2 = .raised Err.valueError := by
  decide

/-- Claim C1 (amended): the 3-line scenario yields exactly the processed
results "G1 X1" and "G1 Y1", with `actual_lines = 3` and `read_lines =
2` before the end-of-content call; the end-of-content `get_next()`
returns `None` but emits `job_done` twice, leaving `actual_lines = 4`
and `read_lines` reset to 0; the next `get_next()` raises. -/
theorem c1_scenario_amended :
    c1firstTwo.2.2 = ["G1 X1", "G1 Y1"]
    ∧ c1mid.actual_lines = 3
    ∧ c1mid.read_lines = 2
    ∧ c1last.2.2 = LocalFilePrintjob.NextRes.finished
    ∧ c1last.2.1 = [Ev.jobDone, Ev.reportStats, Ev.jobDone, Ev.reportStats]
    ∧ c1final.actual_lines = 4
    ∧ c1final.read_lines = 0
    ∧ (LocalFilePrintjob.get_next LocalGcodeFilePrintjob.process_line 0
        c1final).2.2 = .raised Err.valueError := by
  decide

/-- Claim C2: within the single active period of the 3-line scenario
(the job is still active when the end-of-content `get_next()` starts),
that one call emits the terminal `job_done` notification twice — the
EOF branch emits it, and the subsequent closed-handle branch emits it
again. -/
theorem c2_eof_call_emits_two_terminal_notifications :
    c1mid.base.start = some 0
    ∧ c1last.2.1.count Ev.jobDone = 2
    ∧ c1last.2.1 = [Ev.jobDone, Ev.reportStats, Ev.jobDone, Ev.reportStats] := by
  decide

/-- Claim C3, counterexample: `c1final` is a state whose handle was
closed by a prior call (the completed scenario run); `get_next()` on it
raises and emits nothing — in particular no `job_done`. -/
theorem c3_closed_handle_counterexample :
    c1final.handle = none
    ∧ (LocalFilePrintjob.get_next LocalGcodeFilePrintjob.process_line 0
        c1final) = (c1final, [], .raised Err.valueError) := by
  decide

/-- Claim C3 (amended): for every local-file job whose read handle is
already closed when `get_next()` is called, the call raises (the check
at the top of the method) and emits no notification; the
emit-`job_done`-and-return-`None` branch applies only when the handle
closes during the same call. -/
theorem c3_closed_handle_amended
    (procLine : String → Option String) (now : Nat)
    (s : LocalFilePrintjob.State) (h : s.handle = none) :
    LocalFilePrintjob.get_next procLine now s =
      (s, [], .raised Err.valueError) := by
  simp [LocalFilePrintjob.get_next, h]

/-- Witness for the amended C3 at a concrete closed-handle state. -/
theorem c3_closed_handle_witness :
    LocalFilePrintjob.get_next LocalGcodeFilePrintjob.process_line 0
      (LocalFilePrintjob.mk []) =
      (LocalFilePrintjob.mk [], [], .raised Err.valueError) :=
  c3_closed_handle_amended LocalGcodeFilePrintjob.process_line 0
    (LocalFilePrintjob.mk []) rfl

/-- Claim C4, counterexample: on an already-active job (`start` set),
`process()` succeeds, silently overwriting `start_time` and rebinding
the transport. -/
theorem c4_double_process_counterexample :
    c4active.start.isSome = true
    ∧ (Printjob.process 10 2 c4active).1.start = some 10
    ∧ (Printjob.process 10 2 c4active).1.protocol = some 2 := by
  decide

/-- Claim C4 (amended): `process()` performs no already-active check:
for every job state, even one whose `start_time` is set, it overwrites
`start_time` with the current time, rebinds the transport and registers
as its listener, without failing. -/
theorem c4_double_process_amended
    (s : Printjob.State) (now proto : Nat) (_h : s.start.isSome = true) :
    (Printjob.process now proto s).1.start = some now
    ∧ (Printjob.process now proto s).1.protocol = some proto
    ∧ (Printjob.process now proto s).2 = [Ev.registerListener] := by
  simp [Printjob.process]

/-- Witness for the amended C4 at the concrete active state. -/
theorem c4_double_process_witness :
    (Printjob.process 10 2 c4active).1.start = some 10 :=
  (c4_double_process_amended c4active 10 2 (by decide)).1

/-- Claim C5: after the SD scenario's terminal transition has completed
(`reset_job` ran: `active` is false again), `start_time` is still set to
the `process()` time and `elapsed` is still non-`None` —
`SDFilePrintjob.reset_job` does not invoke the base reset that would
clear `_start`. -/
theorem c5_sd_reset_leaves_start_set :
    sdFinal.active = false
    ∧ sdFinal.base.start = some 7
    ∧ Printjob.elapsed 100 sdFinal.base = some 93 := by
  decide

/-- Claim C6, counterexample: after the 3-line scenario's `job_done`
terminal transition completed, the job still holds its transport
reference and no `unregister_listener` call was ever made. -/
theorem c6_done_keeps_transport_counterexample :
    c1final.base.protocol = some 0
    ∧ c1events.count Ev.unregisterListener = 0 := by
  decide

/-- Claim C6 (amended): the transport reference is cleared — and the job
unregistered as the transport's listener — only by `cancel()`; the
`job_done` terminal transition (notify, stats, reset) leaves the
transport reference in place and performs no unregistration. -/
theorem c6_transport_cleared_only_by_cancel
    (s : Printjob.State) (now : Nat) (err : Bool) :
    (Printjob.process_job_done now s).1.protocol = s.protocol
    ∧ (Printjob.process_job_done now s).2.count Ev.unregisterListener = 0
    ∧ (s.protocol.isSome = true →
        (Printjob.cancel now err s).1.protocol = none
        ∧ (Printjob.cancel now err s).2.1.count Ev.unregisterListener = 1
        ∧ (Printjob.cancel now err s).2.2 = none) := by
  refine ⟨by simp [Printjob.process_job_done, Printjob.reset_job],
          by simp [Printjob.process_job_done], ?_⟩
  intro h
  obtain ⟨p, hp⟩ := Option.isSome_iff_exists.mp h
  cases err <;>
    simp [Printjob.cancel, Printjob.process_job_failed,
      Printjob.process_job_cancelled, Printjob.reset_job, hp]

/-- Witness for the amended C6 at a concrete bound-transport state. -/
theorem c6_transport_witness :
    (Printjob.cancel 2 false c4active).1.protocol = none :=
  ((c6_transport_cleared_only_by_cancel c4active 2 false).2.2 (by decide)).1

/-- Claim C7, counterexample: the first full run over the 3-line content
ends with `actual_lines = 4`; the second full run over the same instance
and unchanged content ends with `actual_lines = 8` — the counts are not
identical. -/
theorem c7_roundtrip_counterexample :
    c1final.actual_lines = 4
    ∧ c7final.actual_lines = 8
    ∧ ¬ c7final.actual_lines = c1final.actual_lines := by
  decide

/-- Claim C7 (amended): `reset_job` zeroes `pos` and `read_lines` but
not `actual_lines`; a second full run over unchanged content reproduces
the same processed lines and the same final `read_lines`, while
`actual_lines` accumulates by the same per-run increment instead of
matching the first run. -/
theorem c7_roundtrip_amended :
    (∀ (s : LocalFilePrintjob.State) (now : Nat),
        (LocalFilePrintjob.reset_job now s).actual_lines = s.actual_lines
        ∧ (LocalFilePrintjob.reset_job now s).read_lines = 0
        ∧ (LocalFilePrintjob.reset_job now s).pos = 0)
    ∧ c7secondRun.2.2 = ["G1 X1", "G1 Y1"]
    ∧ c7final.read_lines = c1final.read_lines
    ∧ c7final.actual_lines = c1final.actual_lines + c1final.actual_lines := by
  refine ⟨fun s now => ⟨rfl, rfl, rfl⟩, by decide, by decide, by decide⟩

/-- Claim C8: `progress` is `pos/size` exactly when both are defined and
the size is positive, `None` otherwise; and the SD scenario (started
with size 1000, status callbacks 200/1000 and 1000/1000, then done)
emits the notifications started, progress, progress, done in that
order, with progress 1/5 and 1 at the two status points. -/
theorem c8_progress_definition_and_sd_scenario (p sz : Nat) :
    (0 < sz →
      Printjob.progress (some p) (some sz) = some ((p : ℚ) / (sz : ℚ)))
    ∧ Printjob.progress (some p) (some 0) = none
    ∧ Printjob.progress none (some sz) = none
    ∧ Printjob.progress (some p) none = none
    ∧ sdEvents.filter Ev.isJobNotification =
        [Ev.jobStarted, Ev.jobProgress, Ev.jobProgress, Ev.jobDone]
    ∧ SDFilePrintjob.progress sdStep3.1 = some ((1 : ℚ) / 5)
    ∧ SDFilePrintjob.progress sdStep4.1 = some 1 := by
  have h3 : sdStep3.1.last_pos = some 200 ∧ sdStep3.1.size = some 1000 := by
    decide
  have h4 : sdStep4.1.last_pos = some 1000 ∧ sdStep4.1.size = some 1000 := by
    decide
  refine ⟨fun h => ?_, by simp [Printjob.progress], by simp [Printjob.progress],
    by simp [Printjob.progress], by decide, ?_, ?_⟩
  · simp [Printjob.progress, Nat.pos_iff_ne_zero.mp h]
  · rw [SDFilePrintjob.progress, h3.1, h3.2]
    norm_num [Printjob.progress]
  · rw [SDFilePrintjob.progress, h4.1, h4.2]
    norm_num [Printjob.progress]

/-- Witness for C8 at pos 200, size 1000. -/
theorem c8_progress_witness :
    Printjob.progress (some 200) (some 1000) = some ((200 : ℚ) / 1000) :=
  (c8_progress_definition_and_sd_scenario 200 1000).1 (by decide)

/-- Claim C9: on a recording job bound to a transport, cancellation
handling first stops recording, then deletes the partially-recorded
remote destination, and only then runs the base terminal handling
(cancelled notification, stats report, reset) — in that order, without
raising; the reset has run afterwards (handle closed, `start` cleared,
counters zeroed). -/
theorem c9_stream_cancel_order
    (s : LocalGcodeStreamjob.State) (now p : Nat)
    (h : s.job.base.protocol = some p) :
    (LocalGcodeStreamjob.process_job_cancelled now s).2.1 =
      [Ev.stopRecordingFile, Ev.deleteFile s.remote,
       Ev.jobCancelled, Ev.reportStats]
    ∧ (LocalGcodeStreamjob.process_job_cancelled now s).2.2 = none
    ∧ (LocalGcodeStreamjob.process_job_cancelled now s).1.job.handle = none
    ∧ (LocalGcodeStreamjob.process_job_cancelled now s).1.job.base.start = none
    ∧ (LocalGcodeStreamjob.process_job_cancelled now s).1.job.read_lines = 0
    ∧ (LocalGcodeStreamjob.process_job_cancelled now s).1.job.pos = 0 := by
  simp [LocalGcodeStreamjob.process_job_cancelled, h,
    LocalFilePrintjob.reset_job, Printjob.reset_job]

/-- Witness for C9 at a concrete bound recording job. -/
theorem c9_stream_cancel_witness :
    (LocalGcodeStreamjob.process_job_cancelled 0
      { job := c1mid, remote := "remote.gco" }).2.1 =
      [Ev.stopRecordingFile, Ev.deleteFile "remote.gco",
       Ev.jobCancelled, Ev.reportStats] :=
  (c9_stream_cancel_order { job := c1mid, remote := "remote.gco" } 0 0
    (by decide)).1

/-- Claim C10, counterexample: on a recording job with no bound
transport, `cancel()` raises without emitting any notification — the
overridden terminal processing's first statement
(`self._protocol.stop_recording_file()`) raises before the terminal
notification is reached, refuting "first emits a full terminal
notification and then raises" for every job; the second `cancel()`
likewise emits nothing. -/
theorem c10_stream_cancel_counterexample :
    (LocalGcodeStreamjob.cancel 0 false c10stream).2.1 = []
    ∧ (LocalGcodeStreamjob.cancel 0 false c10stream).2.2 =
        some Err.attributeError
    ∧ (LocalGcodeStreamjob.cancel 0 false
        (LocalGcodeStreamjob.cancel 0 false c10stream).1).2.1 = [] := by
  decide

/-- Claim C10 (amended): on a job with no bound transport, `cancel()`
raises; for jobs whose terminal processing does not touch the transport
(the base `Printjob.cancel` path), it first runs the full terminal
processing (failed or cancelled notification, stats report, reset) and
only then raises on unregistering from the absent transport, so a
second `cancel()` emits a duplicate terminal notification before
raising again — cancel is not idempotent; for recording jobs, however,
the overridden terminal processing raises in `stop_recording_file`
before any notification is emitted (only the `_cancel_pos` mutation
persists). -/
theorem c10_cancel_without_transport_amended
    (s : Printjob.State) (t : LocalGcodeStreamjob.State)
    (now : Nat) (err : Bool)
    (hs : s.protocol = none) (ht : t.job.base.protocol = none) :
    (Printjob.cancel now err s).2.2 = some Err.attributeError
    ∧ (Printjob.cancel now err s).2.1 =
        [if err then Ev.jobFailed else Ev.jobCancelled, Ev.reportStats]
    ∧ (Printjob.cancel now err s).1.start = none
    ∧ (Printjob.cancel now err s).1.protocol = none
    ∧ (Printjob.cancel now err (Printjob.cancel now err s).1).2.2 =
        some Err.attributeError
    ∧ (Printjob.cancel now err (Printjob.cancel now err s).1).2.1 =
        [if err then Ev.jobFailed else Ev.jobCancelled, Ev.reportStats]
    ∧ (LocalGcodeStreamjob.cancel now err t).2.1 = []
    ∧ (LocalGcodeStreamjob.cancel now err t).2.2 = some Err.attributeError
    ∧ (LocalGcodeStreamjob.cancel now err t).1.job.cancel_pos =
        some t.job.pos := by
  cases err <;>
    simp [Printjob.cancel, Printjob.process_job_failed,
      Printjob.process_job_cancelled, Printjob.reset_job,
      LocalGcodeStreamjob.cancel, LocalGcodeStreamjob.process_job_failed,
      LocalGcodeStreamjob.process_job_cancelled, hs, ht]

/-- Witness for the amended C10 at a freshly constructed base job and
the concrete unbound recording job. -/
theorem c10_cancel_amended_witness :
    (Printjob.cancel 3 false Printjob.mk).2.2 = some Err.attributeError
    ∧ (LocalGcodeStreamjob.cancel 3 false c10stream).2.1 = [] :=
  ⟨(c10_cancel_without_transport_amended Printjob.mk c10stream 3 false
      rfl rfl).1,
   (c10_cancel_without_transport_amended Printjob.mk c10stream 3 false
      rfl rfl).2.2.2.2.2.2.1⟩

end OctoJob
